import Mathlib

/-!
Shallow embedding of the `tracing-stable-trace-id-example` repository
(`src/trace.rs`, `src/json.rs`): a JSON event formatter that embeds
distributed-tracing correlation identifiers.

The external capabilities (the serde_json streaming serializer writing
through the `WriteAdaptor` into a text sink, and the span registry) are
modelled as explicit data: a `Sink` decides whether each key/value write
is accepted, JSON values are an inductive `Json` AST, and the
already-parsed state of a span's recorded field blob is carried in
`SpanData`.  Machine integers (`u128` trace ids, `u64` span ids, `u8`
trace flags) are natural numbers with explicit bounds where they matter.
-/

namespace StableTrace

/-- JSON value AST (model of `serde_json::Value`; integer numbers suffice
for everything this repository serializes). -/
inductive Json where
  | null : Json
  | bool : Bool → Json
  | num : Int → Json
  | str : String → Json
  | arr : List Json → Json
  | obj : List (String × Json) → Json

/-- Lowercase hexadecimal digit character for `n < 16` (as produced by
Rust's `{:x}` formatting used by the `TraceId`/`SpanId` `Display` impls). -/
def hexDigitChar (n : Nat) : Char :=
  if n < 10 then Char.ofNat (48 + n) else Char.ofNat (87 + n)

/-- Fixed-width lowercase hexadecimal rendering, most significant digit
first: the model of Rust's `{:032x}` / `{:016x}` zero-padded formatting. -/
def toHexPad : Nat → Nat → List Char
  | 0, _ => []
  | w + 1, n => toHexPad w (n / 16) ++ [hexDigitChar (n % 16)]

/-- `opentelemetry::trace::TraceId`'s `Display`/`to_string`: 32-character
zero-padded lowercase hex of the 128-bit id. -/
def traceIdToString (n : Nat) : String :=
  String.mk (toHexPad 32 n)

/-- `opentelemetry::trace::SpanId`'s `Display`/`to_string`: 16-character
zero-padded lowercase hex of the 64-bit id. -/
def spanIdToString (n : Nat) : String :=
  String.mk (toHexPad 16 n)

/-- `TraceInfo` (trace.rs lines 28-33). -/
structure TraceInfo where
  trace_id : String
  span_id : String
  deriving DecidableEq

/-- An `opentelemetry::trace::SpanContext`: the identifier data associated
with a span (trace id is 128-bit, span id 64-bit, flags 8-bit). -/
structure SpanContext where
  trace_id : Nat
  span_id : Nat
  trace_flags : Nat
  is_remote : Bool
  deriving DecidableEq

/-- `TraceId::INVALID`: the reserved all-zero trace id. -/
def TraceId.INVALID : Nat := 0

/-- `trace_info_from_ref` (trace.rs lines 35-47): resolve the span
context's identifiers into a `TraceInfo`, reporting `none` when the trace
id is the reserved invalid (all-zero) value. -/
def trace_info_from_ref (span_context : SpanContext) : Option TraceInfo :=
  if span_context.trace_id = TraceId.INVALID then none
  else
    some { trace_id := traceIdToString span_context.trace_id,
           span_id := spanIdToString span_context.span_id }

/-- `RemoteTraceContext` (trace.rs lines 6-12): an externally supplied
trace context; `trace_flags` is a `u8`. -/
structure RemoteTraceContext where
  info : TraceInfo
  trace_flags : Nat
  deriving DecidableEq

/-- The `Default` instance derived for `RemoteTraceContext`: empty id
strings and zero flags. -/
def RemoteTraceContext.default : RemoteTraceContext :=
  { info := { trace_id := "", span_id := "" }, trace_flags := 0 }

/-- Is `c` an ASCII hexadecimal digit (either case)? -/
def isHexChar (c : Char) : Bool :=
  (48 ≤ c.toNat && c.toNat ≤ 57) ||
  (97 ≤ c.toNat && c.toNat ≤ 102) ||
  (65 ≤ c.toNat && c.toNat ≤ 70)

/-- Numeric value of a hexadecimal digit character. -/
def hexCharVal (c : Char) : Nat :=
  if c.toNat ≤ 57 then c.toNat - 48
  else if c.toNat ≤ 70 then c.toNat - 55
  else c.toNat - 87

/-- Value of a hexadecimal string (big-endian digit order). -/
def hexToNat (s : String) : Nat :=
  s.data.foldl (fun acc c => acc * 16 + hexCharVal c) 0

/-- Modelled from the spec: `TraceId::from_hex` / `SpanId::from_hex` of
the external opentelemetry crate, which is not part of this repository.
Per the spec (section 4.3 / section 7), attaching a remote context
"Fails ... if either `trace_id` or `span_id` in the remote context is not
valid hexadecimal of the expected length": parsing succeeds exactly on
hexadecimal strings of the expected width (32 for trace ids, 16 for span
ids). -/
def from_hex (width : Nat) (s : String) : Option Nat :=
  if s.length == width && s.data.all isHexChar then some (hexToNat s) else none

/-- A `tracing::Span`, reduced to the part this repository manipulates:
the parent context installed by `OpenTelemetrySpanExt::set_parent` (and
later read back as `OtelData.parent_cx` during formatting). -/
structure Span where
  parent_cx : Option SpanContext
  deriving DecidableEq

/-- `remote_trace_span` (trace.rs lines 15-26): set the span's parent to a
remote span context built from the given `RemoteTraceContext`.  The two
`unwrap` calls panic when hex parsing fails; the panic is modelled as
`none`. -/
def remote_trace_span (span : Span) (trace_context : RemoteTraceContext) : Option Span :=
  match from_hex 32 trace_context.info.trace_id, from_hex 16 trace_context.info.span_id with
  | some t, some s =>
      some { span with
              parent_cx := some { trace_id := t, span_id := s,
                                  trace_flags := trace_context.trace_flags,
                                  is_remote := true } }
  | _, _ => none

/-- Modelled from the spec (section 6 wire format) and the serde derive
attributes on trace.rs lines 6-12 / 28-33 (`rename_all = "camelCase"`,
`#[serde(flatten)] info`): serialization of a `RemoteTraceContext`
produces a flat JSON object with the two identifier keys of `info`
inlined at the top level followed by `traceFlags`. -/
def RemoteTraceContext.toJson (c : RemoteTraceContext) : Json :=
  Json.obj [("traceId", Json.str c.info.trace_id),
            ("spanId", Json.str c.info.span_id),
            ("traceFlags", Json.num (Int.ofNat c.trace_flags))]

/-- First binding of key `k` in an association list of JSON entries. -/
def jsonLookup : List (String × Json) → String → Option Json
  | [], _ => none
  | kv :: rest, k => if kv.1 = k then some kv.2 else jsonLookup rest k

/-- Modelled from the spec (section 6 wire format) and the serde derive
attributes on trace.rs: deserialization of a `RemoteTraceContext`
requires a JSON object carrying string `traceId` / `spanId` entries and a
`traceFlags` number fitting in a `u8`; no hex-format or length validation
is performed, and unknown keys are ignored. -/
def RemoteTraceContext.fromJson : Json → Option RemoteTraceContext
  | Json.obj kvs =>
    match jsonLookup kvs "traceId", jsonLookup kvs "spanId", jsonLookup kvs "traceFlags" with
    | some (Json.str t), some (Json.str s), some (Json.num f) =>
        if 0 ≤ f ∧ f ≤ 255 then
          some { info := { trace_id := t, span_id := s }, trace_flags := f.toNat }
        else none
    | _, _, _ => none
  | _ => none

/-- The streaming JSON serializer / sink capability (json.rs:
`serde_json::Serializer` over the `WriteAdaptor` over the `Writer`).
`ok k v` says whether the sink accepts writing the entry `k : v`; `endOk`
says whether the map-closing write succeeds; `nlOk` says whether the
final `writeln!` succeeds. -/
structure Sink where
  ok : String → Json → Bool
  endOk : Bool
  nlOk : Bool

/-- `serialize_entry`: append one key/value entry to the open map, or fail
when the sink rejects the write. -/
def serialize_entry (sink : Sink) (es : List (String × Json)) (k : String) (v : Json) :
    Except Unit (List (String × Json)) :=
  if sink.ok k v then Except.ok (es ++ [(k, v)]) else Except.error ()

/-- A sequence of `serialize_entry` calls, stopping at the first failure. -/
def serializeFields (sink : Sink) : List (String × Json) → List (String × Json) →
    Except Unit (List (String × Json))
  | es, [] => Except.ok es
  | es, kv :: rest =>
    match serialize_entry sink es kv.1 kv.2 with
    | Except.ok es2 => serializeFields sink es2 rest
    | Except.error e => Except.error e

/-- Outcome of a serialization step in a world where Rust code may panic:
`panics` models a Rust panic, `fails` a serializer/sink error that is
returned as `Err`. -/
inductive SerResult (α : Type) where
  | panics : SerResult α
  | fails : SerResult α
  | ok : α → SerResult α
  deriving DecidableEq

/-- `OtelData` (the `tracing_opentelemetry` extension read in json.rs
lines 50-59): the parent context installed on the span (its span's
`SpanContext`) and the export subsystem's `SpanBuilder.span_id`. -/
structure OtelData where
  parent_cx : SpanContext
  builder_span_id : Option Nat
  deriving DecidableEq

/-- The data json.rs reads from the current span through the registry:
its name, the parse result of its `FormattedFields` blob
(`serde_json::from_str`, with the parse error's textual description on
failure; `none` models a missing `FormattedFields` extension, which the
source `expect`s on), and the optional `OtelData` extension. -/
structure SpanData where
  name : String
  formatted : Option (Except String Json)
  otel : Option OtelData

/-- The trace-identifier resolution of json.rs lines 50-59: look up the
`OtelData` extension, resolve `trace_info_from_ref` on the parent
context's span, and overwrite the span-id half with the
`SpanBuilder`-assigned span id when one is present. -/
def resolve_trace_info (sp : SpanData) : Option TraceInfo :=
  sp.otel.bind fun o =>
    (trace_info_from_ref o.parent_cx).map fun info =>
      match o.builder_span_id with
      | some span_id => { info with span_id := spanIdToString span_id }
      | none => info

/-- The field-emission cases of `SerializableSpan::serialize` (json.rs
lines 129-163): the match on `serde_json::from_str::<Value>(data)`. -/
def span_field_entries (sink : Sink) (debug_assertions : Bool)
    (parsed : Except String Json) : SerResult (List (String × Json)) :=
  match parsed with
  | Except.ok (Json.obj fields) =>
    match serializeFields sink [] fields with
    | Except.ok es => SerResult.ok es
    | Except.error _ => SerResult.fails
  | Except.ok value =>
    if debug_assertions then SerResult.panics
    else
      match serializeFields sink []
          [("field", value), ("field_error", Json.str "field was no a valid object")] with
      | Except.ok es => SerResult.ok es
      | Except.error _ => SerResult.fails
  | Except.error e =>
    if debug_assertions then SerResult.panics
    else
      match serializeFields sink [] [("field_error", Json.str e)] with
      | Except.ok es => SerResult.ok es
      | Except.error _ => SerResult.fails

/-- `SerializableSpan::serialize` (json.rs lines 113-166): open a map,
emit the recorded-field entries (panicking when the `FormattedFields`
extension is missing), then the `name` entry, then close the map. -/
def serializeSpan (sink : Sink) (debug_assertions : Bool) (sp : SpanData) : SerResult Json :=
  match sp.formatted with
  | none => SerResult.panics
  | some parsed =>
    match span_field_entries sink debug_assertions parsed with
    | SerResult.panics => SerResult.panics
    | SerResult.fails => SerResult.fails
    | SerResult.ok es =>
      match serialize_entry sink es "name" (Json.str sp.name) with
      | Except.error _ => SerResult.fails
      | Except.ok es2 =>
        if sink.endOk then SerResult.ok (Json.obj es2) else SerResult.fails

/-- The event data json.rs lines 38-41 serialize: the formatted
timestamp, the level's serde rendering, the event's field map and the
metadata target. -/
structure EventData where
  timestamp : String
  level : String
  fields : Json
  target : String

/-- The four unconditional leading entries of every formatted event
(json.rs lines 38-41). -/
def baseEntries (ev : EventData) : List (String × Json) :=
  [("timestamp", Json.str ev.timestamp), ("level", Json.str ev.level),
   ("fields", ev.fields), ("target", Json.str ev.target)]

/-- The trace-identifier entries appended for a span (json.rs lines
61-64): `span_id` then `trace_id`, or nothing when resolution reports no
trace. -/
def idEntries (sp : SpanData) : List (String × Json) :=
  match resolve_trace_info sp with
  | none => []
  | some info => [("span_id", Json.str info.span_id), ("trace_id", Json.str info.trace_id)]

/-- The tail of the `visit` closure after the `span` entry (json.rs lines
50-67): resolve the trace info, append `span_id`/`trace_id` when present
(each `?`-propagating), then `serializer.end()`. -/
def afterSpan (sink : Sink) (sp : SpanData) (es : List (String × Json)) :
    SerResult (List (String × Json)) :=
  match resolve_trace_info sp with
  | none => if sink.endOk then SerResult.ok es else SerResult.fails
  | some info =>
    match serialize_entry sink es "span_id" (Json.str info.span_id) with
    | Except.error _ => SerResult.fails
    | Except.ok es1 =>
      match serialize_entry sink es1 "trace_id" (Json.str info.trace_id) with
      | Except.error _ => SerResult.fails
      | Except.ok es2 => if sink.endOk then SerResult.ok es2 else SerResult.fails

/-- The `visit` closure of `format_event` (json.rs lines 35-68): the four
base entries (each `?`-propagating), then — when a current span exists —
the `span` entry whose failure is swallowed by `unwrap_or(())`, the
optional identifier entries, and `serializer.end()`. -/
def visit (sink : Sink) (ev : EventData) (current : Option SpanData)
    (debug_assertions : Bool) : SerResult (List (String × Json)) :=
  match serializeFields sink [] (baseEntries ev) with
  | Except.error _ => SerResult.fails
  | Except.ok es4 =>
    match current with
    | none => if sink.endOk then SerResult.ok es4 else SerResult.fails
    | some sp =>
      match serializeSpan sink debug_assertions sp with
      | SerResult.panics => SerResult.panics
      | SerResult.fails => afterSpan sink sp es4
      | SerResult.ok spanJson =>
        match serialize_entry sink es4 "span" spanJson with
        | Except.error _ => afterSpan sink sp es4
        | Except.ok es5 => afterSpan sink sp es5

/-- JSON string escaping as performed by the serializer for string
values and keys. -/
def escapeChar (c : Char) : String :=
  if c = '"' then "\\\""
  else if c = '\\' then "\\\\"
  else if c = '\n' then "\\n"
  else if c = '\r' then "\\r"
  else if c = '\t' then "\\t"
  else if c.toNat < 32 then
    "\\u00" ++ String.mk [hexDigitChar (c.toNat / 16), hexDigitChar (c.toNat % 16)]
  else String.singleton c

/-- Escape every character of a string for JSON output. -/
def escapeString (s : String) : String :=
  s.data.foldl (fun acc c => acc ++ escapeChar c) ""

mutual

/-- Compact textual rendering of a JSON value, as the streaming
serializer writes it into the sink (no whitespace, no trailing commas). -/
def renderJson : Json → String
  | Json.null => "null"
  | Json.bool b => if b then "true" else "false"
  | Json.num n => toString n
  | Json.str s => "\"" ++ escapeString s ++ "\""
  | Json.arr xs => "[" ++ renderArray xs ++ "]"
  | Json.obj kvs => "\x7b" ++ renderEntries kvs ++ "\x7d"

/-- Comma-separated rendering of array elements. -/
def renderArray : List Json → String
  | [] => ""
  | [x] => renderJson x
  | x :: y :: rest => renderJson x ++ "," ++ renderArray (y :: rest)

/-- Comma-separated rendering of object entries. -/
def renderEntries : List (String × Json) → String
  | [] => ""
  | [kv] => "\"" ++ escapeString kv.1 ++ "\":" ++ renderJson kv.2
  | kv :: kv2 :: rest =>
      "\"" ++ escapeString kv.1 ++ "\":" ++ renderJson kv.2 ++ "," ++ renderEntries (kv2 :: rest)

end

/-- `format_event` (json.rs lines 24-72): run the `visit` closure; on
serializer failure the whole call fails (`map_err` + `?`), on success
the serialized object stands in the writer and `writeln!` appends the
line terminator (failing the call when the sink rejects it). -/
def format_event (sink : Sink) (ev : EventData) (current : Option SpanData)
    (debug_assertions : Bool) : SerResult String :=
  match visit sink ev current debug_assertions with
  | SerResult.panics => SerResult.panics
  | SerResult.fails => SerResult.fails
  | SerResult.ok es =>
    if sink.nlOk then SerResult.ok (renderJson (Json.obj es) ++ "\n")
    else SerResult.fails

/-- Is `c` a lowercase hexadecimal digit (`0`-`9` or `a`-`f`)? -/
def isLowerHex (c : Char) : Bool :=
  (48 ≤ c.toNat && c.toNat ≤ 57) || (97 ≤ c.toNat && c.toNat ≤ 102)

/-- Does the string consist only of lowercase hexadecimal digits? -/
def isLowerHexString (s : String) : Bool :=
  s.data.all isLowerHex

/-- The identifier entries contributed by the (optional) current span. -/
def idPartOf : Option SpanData → List (String × Json)
  | none => []
  | some sp => idEntries sp

/-- A sink that accepts every write: the ordinary healthy-output case. -/
def sinkAll : Sink :=
  { ok := fun _ _ => true, endOk := true, nlOk := true }

/-- A sink that rejects exactly the top-level `span` entry, used to
exercise the `unwrap_or(())` recovery path. -/
def sinkNoSpan : Sink :=
  { ok := fun k _ => k != "span", endOk := true, nlOk := true }

/-- A concrete event, shaped like the records `main.rs` emits. -/
def evEx : EventData :=
  { timestamp := "2026-10-12T00:00:00+00:00", level := "INFO",
    fields := Json.obj [("message", Json.str "main one")],
    target := "stable_trace_id" }

/-- A concrete current span with a well-formed field blob, an `OtelData`
extension whose parent context has trace id 1 / span id 2, and a
builder-assigned span id 3. -/
def spEx : SpanData :=
  { name := "main one",
    formatted := some (Except.ok (Json.obj [("a", Json.num 1)])),
    otel := some { parent_cx := { trace_id := 1, span_id := 2, trace_flags := 0,
                                  is_remote := true },
                   builder_span_id := some 3 } }

/-- A concrete current span whose associated trace id is the reserved
all-zero invalid value. -/
def spZero : SpanData :=
  { name := "z",
    formatted := some (Except.ok (Json.obj [])),
    otel := some { parent_cx := { trace_id := 0, span_id := 5, trace_flags := 0,
                                  is_remote := true },
                   builder_span_id := some 7 } }

/-- The remote trace context literal from `main.rs` lines 26-32. -/
def exampleCtx : RemoteTraceContext :=
  { info := { trace_id := "9d96f6d506048d33796d850a09797e55",
              span_id := "0db1818f6e5514ee" },
    trace_flags := 0 }

/-- The entry list `visit` produces for `evEx` with current span `spEx`
on a fully accepting sink. -/
def esEx : List (String × Json) :=
  baseEntries evEx ++
    [("span", Json.obj [("a", Json.num 1), ("name", Json.str "main one")])] ++
    idEntries spEx

theorem serialize_entry_ok {sink : Sink} {es es2 : List (String × Json)} {k : String}
    {v : Json} (h : serialize_entry sink es k v = Except.ok es2) :
    es2 = es ++ [(k, v)] ∧ sink.ok k v = true := by
  unfold serialize_entry at h
  split at h
  · next hc =>
    injection h with h2
    exact ⟨h2.symm, hc⟩
  · simp at h

theorem serializeFields_ok {sink : Sink} :
    ∀ {l es es2 : List (String × Json)},
      serializeFields sink es l = Except.ok es2 → es2 = es ++ l := by
  intro l
  induction l with
  | nil =>
    intro es es2 h
    unfold serializeFields at h
    injection h with h2
    simp [h2.symm]
  | cons kv rest ih =>
    intro es es2 h
    unfold serializeFields at h
    split at h
    · next es3 hse =>
      obtain ⟨rfl, -⟩ := serialize_entry_ok hse
      rw [ih h]
      simp
    · simp at h

theorem serializeFields_allOk {sink : Sink} :
    ∀ {l : List (String × Json)} {es : List (String × Json)},
      (∀ kv ∈ l, sink.ok kv.1 kv.2 = true) →
      serializeFields sink es l = Except.ok (es ++ l) := by
  intro l
  induction l with
  | nil =>
    intro es _
    simp [serializeFields]
  | cons kv rest ih =>
    intro es h
    have h1 : sink.ok kv.1 kv.2 = true := h kv (by simp)
    have h2 : ∀ kv2 ∈ rest, sink.ok kv2.1 kv2.2 = true := fun kv2 hm => h kv2 (by simp [hm])
    rw [serializeFields, serialize_entry, if_pos h1]
    show serializeFields sink (es ++ [(kv.1, kv.2)]) rest = Except.ok (es ++ kv :: rest)
    rw [ih h2]
    simp

theorem afterSpan_ok {sink : Sink} {sp : SpanData} {es es2 : List (String × Json)}
    (h : afterSpan sink sp es = SerResult.ok es2) : es2 = es ++ idEntries sp := by
  unfold afterSpan at h
  unfold idEntries
  split at h
  · next hres =>
    split at h
    · injection h with h2
      simp [h2.symm]
    · simp at h
  · next info hres =>
    split at h
    · simp at h
    · next es1 hse1 =>
      obtain ⟨rfl, -⟩ := serialize_entry_ok hse1
      split at h
      · simp at h
      · next es3 hse2 =>
        obtain ⟨rfl, -⟩ := serialize_entry_ok hse2
        split at h
        · injection h with h2
          simp [h2.symm]
        · simp at h

theorem afterSpan_ok_of {sink : Sink} {sp : SpanData} {es : List (String × Json)}
    (hok : ∀ k v, k ≠ "span" → sink.ok k v = true) (hend : sink.endOk = true) :
    afterSpan sink sp es = SerResult.ok (es ++ idEntries sp) := by
  unfold afterSpan idEntries
  rcases hres : resolve_trace_info sp with _ | info
  · simp [hend]
  · have h1 := hok "span_id" (Json.str info.span_id) (by decide)
    have h2 := hok "trace_id" (Json.str info.trace_id) (by decide)
    simp [serialize_entry, h1, h2, hend]

theorem span_field_entries_ne_panics (sink : Sink) (parsed : Except String Json) :
    span_field_entries sink false parsed ≠ SerResult.panics := by
  intro h
  unfold span_field_entries at h
  split at h
  · split at h <;> simp at h
  · simp only [Bool.false_eq_true, if_false] at h
    split at h <;> simp at h
  · simp only [Bool.false_eq_true, if_false] at h
    split at h <;> simp at h

theorem serializeSpan_ne_panics {sink : Sink} {sp : SpanData} {parsed : Except String Json}
    (hfmt : sp.formatted = some parsed) :
    serializeSpan sink false sp ≠ SerResult.panics := by
  intro h
  unfold serializeSpan at h
  split at h
  · next heq =>
    rw [hfmt] at heq
    cases heq
  · next parsed2 heq =>
    rw [hfmt] at heq
    injection heq with heq2
    subst heq2
    split at h
    · next hsf => exact span_field_entries_ne_panics sink parsed hsf
    · simp at h
    · split at h
      · simp at h
      · split at h <;> simp at h

theorem visit_ok_shape {sink : Sink} {ev : EventData} {current : Option SpanData}
    {debug : Bool} {es : List (String × Json)}
    (h : visit sink ev current debug = SerResult.ok es) :
    ∃ spanPart, es = baseEntries ev ++ spanPart ++ idPartOf current ∧
      (spanPart = [] ∨ ∃ j, spanPart = [("span", j)]) ∧
      (current = none → spanPart = []) := by
  unfold visit at h
  split at h
  · simp at h
  · next es4 hb =>
    obtain rfl : es4 = baseEntries ev := by simpa using serializeFields_ok hb
    split at h
    · -- current = none
      refine ⟨[], ?_, Or.inl rfl, fun _ => rfl⟩
      split at h
      · injection h with h2
        simp [idPartOf, h2.symm]
      · simp at h
    · -- current = some sp
      next sp =>
      split at h
      · simp at h
      · refine ⟨[], ?_, Or.inl rfl, fun _ => rfl⟩
        rw [afterSpan_ok h]
        simp [idPartOf]
      · next spanJson hsj =>
        split at h
        · refine ⟨[], ?_, Or.inl rfl, fun hc => rfl⟩
          rw [afterSpan_ok h]
          simp [idPartOf]
        · next es5 hse =>
          obtain ⟨rfl, -⟩ := serialize_entry_ok hse
          refine ⟨[("span", spanJson)], ?_, Or.inr ⟨spanJson, rfl⟩, fun hc => by cases hc⟩
          rw [afterSpan_ok h]
          simp [idPartOf]

theorem visit_none_ok {sink : Sink} {ev : EventData} {debug : Bool}
    {es : List (String × Json)} (h : visit sink ev none debug = SerResult.ok es) :
    es = baseEntries ev := by
  obtain ⟨spanPart, hes, -, hnone⟩ := visit_ok_shape h
  rw [hnone rfl] at hes
  simpa [idPartOf] using hes

theorem toHexPad_length (w : Nat) : ∀ n, (toHexPad w n).length = w := by
  induction w with
  | zero => intro n; rfl
  | succ w ih =>
    intro n
    rw [toHexPad]
    simp [ih]

theorem hexDigitChar_isLowerHex {n : Nat} (h : n < 16) :
    isLowerHex (hexDigitChar n) = true := by
  interval_cases n <;> decide

theorem toHexPad_isLowerHex (w : Nat) : ∀ n c, c ∈ toHexPad w n → isLowerHex c = true := by
  induction w with
  | zero =>
    intro n c hc
    simp [toHexPad] at hc
  | succ w ih =>
    intro n c hc
    rw [toHexPad] at hc
    rcases List.mem_append.mp hc with hc | hc
    · exact ih _ c hc
    · rcases List.mem_singleton.mp hc with rfl
      exact hexDigitChar_isLowerHex (Nat.mod_lt _ (by norm_num))

theorem traceIdToString_length (n : Nat) : (traceIdToString n).length = 32 := by
  show (toHexPad 32 n).length = 32
  exact toHexPad_length 32 n

theorem spanIdToString_length (n : Nat) : (spanIdToString n).length = 16 := by
  show (toHexPad 16 n).length = 16
  exact toHexPad_length 16 n

theorem traceIdToString_lowerHex (n : Nat) : isLowerHexString (traceIdToString n) = true := by
  show (toHexPad 32 n).all isLowerHex = true
  rw [List.all_eq_true]
  exact fun c hc => toHexPad_isLowerHex 32 n c hc

theorem spanIdToString_lowerHex (n : Nat) : isLowerHexString (spanIdToString n) = true := by
  show (toHexPad 16 n).all isLowerHex = true
  rw [List.all_eq_true]
  exact fun c hc => toHexPad_isLowerHex 16 n c hc

theorem spanIdToString_ne_empty (n : Nat) : spanIdToString n ≠ "" := by
  intro hc
  have h1 := spanIdToString_length n
  rw [hc] at h1
  exact absurd h1 (by decide)

/-- C1: when resolving trace identifiers for the current span, a present
`SpanBuilder`-assigned span id — which renders to a non-empty
16-character string — overwrites the span-id half of the resolved
`TraceInfo`, while the emitted trace id always equals the one resolved
from the span's context lookup and is never overwritten by this
mechanism. -/
theorem c1_builder_span_id_precedence (sp : SpanData) (o : OtelData) (info : TraceInfo)
    (ho : sp.otel = some o) (hres : resolve_trace_info sp = some info) :
    info.trace_id = traceIdToString o.parent_cx.trace_id ∧
    (∀ sid, o.builder_span_id = some sid →
        info.span_id = spanIdToString sid ∧ spanIdToString sid ≠ "") ∧
    (o.builder_span_id = none → info.span_id = spanIdToString o.parent_cx.span_id) := by
  unfold resolve_trace_info at hres
  rw [ho] at hres
  simp only [Option.some_bind] at hres
  rcases hb : o.builder_span_id with _ | sid
  · rw [hb] at hres
    unfold trace_info_from_ref at hres
    by_cases hz : o.parent_cx.trace_id = TraceId.INVALID
    · rw [if_pos hz] at hres
      simp at hres
    · rw [if_neg hz] at hres
      simp at hres
      subst hres
      refine ⟨rfl, fun sid2 hcc => ?_, fun _ => rfl⟩
      cases hcc
  · rw [hb] at hres
    unfold trace_info_from_ref at hres
    by_cases hz : o.parent_cx.trace_id = TraceId.INVALID
    · rw [if_pos hz] at hres
      simp at hres
    · rw [if_neg hz] at hres
      simp at hres
      subst hres
      refine ⟨rfl, fun sid2 hcc => ?_, fun hcc => ?_⟩
      · cases hcc
        exact ⟨rfl, spanIdToString_ne_empty sid⟩
      · cases hcc

/-- C1 witness: a concrete span whose parent context has trace id 1 /
span id 2 and whose `SpanBuilder` carries span id 3. -/
theorem c1_witness :
    resolve_trace_info spEx = some ⟨traceIdToString 1, spanIdToString 3⟩ ∧
    (⟨traceIdToString 1, spanIdToString 3⟩ : TraceInfo).trace_id = traceIdToString 1 ∧
    (⟨traceIdToString 1, spanIdToString 3⟩ : TraceInfo).span_id = spanIdToString 3 :=
  ⟨rfl,
   (c1_builder_span_id_precedence spEx ⟨⟨1, 2, 0, true⟩, some 3⟩ _ rfl rfl).1,
   ((c1_builder_span_id_precedence spEx ⟨⟨1, 2, 0, true⟩, some 3⟩ _ rfl rfl).2.1 3 rfl).1⟩

/-- C2: a span context whose trace id is the reserved all-zero value
resolves to "no trace", and no `trace_id` / `span_id` entry is emitted
for such a span; a non-zero trace id resolves to a `TraceInfo` carrying
the trace id and the context's span id as fixed-width lowercase hex
strings. -/
theorem c2_zero_trace_id_omitted :
    (∀ cx : SpanContext, cx.trace_id = TraceId.INVALID → trace_info_from_ref cx = none) ∧
    (∀ cx : SpanContext, cx.trace_id ≠ TraceId.INVALID →
        trace_info_from_ref cx =
          some ⟨traceIdToString cx.trace_id, spanIdToString cx.span_id⟩ ∧
        (traceIdToString cx.trace_id).length = 32 ∧
        isLowerHexString (traceIdToString cx.trace_id) = true ∧
        (spanIdToString cx.span_id).length = 16 ∧
        isLowerHexString (spanIdToString cx.span_id) = true) ∧
    (∀ (sink : Sink) (ev : EventData) (sp : SpanData) (o : OtelData) (debug : Bool)
        (es : List (String × Json)),
        sp.otel = some o → o.parent_cx.trace_id = TraceId.INVALID →
        visit sink ev (some sp) debug = SerResult.ok es →
        ¬ "trace_id" ∈ es.map Prod.fst ∧ ¬ "span_id" ∈ es.map Prod.fst) := by
  refine ⟨?_, ?_, ?_⟩
  · intro cx hz
    unfold trace_info_from_ref
    rw [if_pos hz]
  · intro cx hz
    unfold trace_info_from_ref
    rw [if_neg hz]
    exact ⟨rfl, traceIdToString_length _, traceIdToString_lowerHex _,
           spanIdToString_length _, spanIdToString_lowerHex _⟩
  · intro sink ev sp o debug es ho hz h
    have hresolve : resolve_trace_info sp = none := by
      unfold resolve_trace_info trace_info_from_ref
      rw [ho]
      simp [hz]
    obtain ⟨spanPart, hes, hsp, -⟩ := visit_ok_shape h
    subst hes
    have hid : idPartOf (some sp) = [] := by
      simp [idPartOf, idEntries, hresolve]
    rw [hid]
    rcases hsp with rfl | ⟨j, rfl⟩
    · simp [baseEntries]
    · simp [baseEntries]

/-- C2 witness: a concrete zero-trace span formatted through `visit`, and
a concrete non-zero span context. -/
theorem c2_witness :
    trace_info_from_ref ⟨0, 5, 0, true⟩ = none ∧
    trace_info_from_ref ⟨1, 2, 0, true⟩ =
      some ⟨traceIdToString 1, spanIdToString 2⟩ ∧
    (visit sinkAll evEx (some spZero) false =
        SerResult.ok (baseEntries evEx ++ [("span", Json.obj [("name", Json.str "z")])]) ∧
      ¬ "trace_id" ∈ ((baseEntries evEx ++
          [("span", Json.obj [("name", Json.str "z")])]).map Prod.fst)) :=
  ⟨c2_zero_trace_id_omitted.1 ⟨0, 5, 0, true⟩ rfl,
   (c2_zero_trace_id_omitted.2.1 ⟨1, 2, 0, true⟩ (by decide)).1,
   rfl,
   (c2_zero_trace_id_omitted.2.2 sinkAll evEx spZero ⟨⟨0, 5, 0, true⟩, some 7⟩ false
      (baseEntries evEx ++ [("span", Json.obj [("name", Json.str "z")])]) rfl rfl rfl).1⟩

/-- C3: in a non-debug configuration, with a healthy sink, the span field
serializer handles the parsed field blob in exactly three cases — object:
flattened key/value entries; non-object value: a `field` entry plus the
fixed `field_error` diagnostic; parse failure: a `field_error` entry with
the error's textual description — and in all three cases appends a
`name` entry afterwards without failing the span entry. -/
theorem c3_span_field_cases (sink : Sink) (sp : SpanData)
    (hok : ∀ k v, sink.ok k v = true) (hend : sink.endOk = true) :
    (∀ kvs, sp.formatted = some (Except.ok (Json.obj kvs)) →
        serializeSpan sink false sp =
          SerResult.ok (Json.obj (kvs ++ [("name", Json.str sp.name)]))) ∧
    (∀ v, sp.formatted = some (Except.ok v) → (∀ kvs, v ≠ Json.obj kvs) →
        serializeSpan sink false sp =
          SerResult.ok (Json.obj
            [("field", v), ("field_error", Json.str "field was no a valid object"),
             ("name", Json.str sp.name)])) ∧
    (∀ e, sp.formatted = some (Except.error e) →
        serializeSpan sink false sp =
          SerResult.ok (Json.obj [("field_error", Json.str e), ("name", Json.str sp.name)])) := by
  have hall : ∀ (l es : List (String × Json)),
      serializeFields sink es l = Except.ok (es ++ l) :=
    fun l es => serializeFields_allOk (fun kv _ => hok kv.1 kv.2)
  refine ⟨?_, ?_, ?_⟩
  · intro kvs hfmt
    simp [serializeSpan, hfmt, span_field_entries, hall, serialize_entry, hok, hend]
  · intro v hfmt hv
    rcases v with _ | b | n | str2 | xs | kvs
    · simp [serializeSpan, hfmt, span_field_entries, hall, serialize_entry, hok, hend]
    · simp [serializeSpan, hfmt, span_field_entries, hall, serialize_entry, hok, hend]
    · simp [serializeSpan, hfmt, span_field_entries, hall, serialize_entry, hok, hend]
    · simp [serializeSpan, hfmt, span_field_entries, hall, serialize_entry, hok, hend]
    · simp [serializeSpan, hfmt, span_field_entries, hall, serialize_entry, hok, hend]
    · exact absurd rfl (hv kvs)
  · intro e hfmt
    simp [serializeSpan, hfmt, span_field_entries, hall, serialize_entry, hok, hend]

/-- C3 witness: a span whose blob parsed to the object with single key
`a`. -/
theorem c3_witness :
    serializeSpan sinkAll false spEx =
      SerResult.ok (Json.obj [("a", Json.num 1), ("name", Json.str "main one")]) :=
  (c3_span_field_cases sinkAll spEx (fun _ _ => rfl) rfl).1 [("a", Json.num 1)] rfl

/-- C4: the keys of every successfully formatted event appear in exactly
the order timestamp, level, fields, target, then `span` (only when a
current span exists), then `span_id` and `trace_id` (only when a current
span exists and resolves to a valid trace). -/
theorem c4_key_order (sink : Sink) (ev : EventData) (current : Option SpanData)
    (debug : Bool) (es : List (String × Json))
    (h : visit sink ev current debug = SerResult.ok es) :
    ∃ spanKeys idKeys,
      es.map Prod.fst = ["timestamp", "level", "fields", "target"] ++ spanKeys ++ idKeys ∧
      (spanKeys = [] ∨ spanKeys = ["span"]) ∧
      (idKeys = [] ∨ idKeys = ["span_id", "trace_id"]) ∧
      (spanKeys ≠ [] → current ≠ none) ∧
      (idKeys ≠ [] → ∃ sp, current = some sp ∧ (resolve_trace_info sp).isSome = true) := by
  obtain ⟨spanPart, hes, hsp, hnone⟩ := visit_ok_shape h
  subst hes
  refine ⟨spanPart.map Prod.fst, (idPartOf current).map Prod.fst,
    by simp [baseEntries], ?_, ?_, ?_, ?_⟩
  · rcases hsp with rfl | ⟨j, rfl⟩ <;> simp
  · rcases current with _ | sp
    · simp [idPartOf]
    · rcases hres : resolve_trace_info sp with _ | info
      · simp [idPartOf, idEntries, hres]
      · simp [idPartOf, idEntries, hres]
  · intro hne
    rcases current with _ | sp
    · rw [hnone rfl] at hne
      simp at hne
    · simp
  · intro hne
    rcases current with _ | sp
    · simp [idPartOf] at hne
    · refine ⟨sp, rfl, ?_⟩
      rcases hres : resolve_trace_info sp with _ | info
      · exfalso
        apply hne
        simp [idPartOf, idEntries, hres]
      · simp [hres]

/-- C4 witness: a concrete event with a current span carrying a valid
trace. -/
theorem c4_witness :
    ∃ spanKeys idKeys,
      esEx.map Prod.fst = ["timestamp", "level", "fields", "target"] ++ spanKeys ++ idKeys ∧
      (spanKeys = [] ∨ spanKeys = ["span"]) ∧
      (idKeys = [] ∨ idKeys = ["span_id", "trace_id"]) ∧
      (spanKeys ≠ [] → (some spEx : Option SpanData) ≠ none) ∧
      (idKeys ≠ [] → ∃ sp, (some spEx : Option SpanData) = some sp ∧
          (resolve_trace_info sp).isSome = true) :=
  c4_key_order sinkAll evEx (some spEx) false esEx rfl

/-- C5: the format operation either fails or produces exactly one JSON
object followed by a newline: on every success path the output is the
rendering of the single entries object with a newline appended after the
object is closed. -/
theorem c5_object_then_newline (sink : Sink) (ev : EventData) (current : Option SpanData)
    (debug : Bool) (s : String)
    (h : format_event sink ev current debug = SerResult.ok s) :
    ∃ es, visit sink ev current debug = SerResult.ok es ∧
      s = renderJson (Json.obj es) ++ "\n" := by
  unfold format_event at h
  split at h
  · simp at h
  · simp at h
  · next es hv =>
    split at h
    · injection h with h2
      exact ⟨es, hv, h2.symm⟩
    · simp at h

/-- C5 witness: a concrete successful format with no current span. -/
theorem c5_witness :
    ∃ es, visit sinkAll evEx none false = SerResult.ok es ∧
      renderJson (Json.obj (baseEntries evEx)) ++ "\n" = renderJson (Json.obj es) ++ "\n" :=
  c5_object_then_newline sinkAll evEx none false
    (renderJson (Json.obj (baseEntries evEx)) ++ "\n") rfl

/-- C6: `remote_trace_span` panics exactly when the remote context's
trace id or span id fails hex parsing (32- resp. 16-character hex, per
the spec-modelled `from_hex`); on valid input it returns the span with
its parent linkage set to a remote span context carrying the parsed
trace id, span id and trace flags, and (for a non-zero trace id)
resolving that context yields the remote trace id back. -/
theorem c6_remote_trace_span (span : Span) (tc : RemoteTraceContext) :
    (remote_trace_span span tc = none ↔
      (from_hex 32 tc.info.trace_id = none ∨ from_hex 16 tc.info.span_id = none)) ∧
    (∀ t s, from_hex 32 tc.info.trace_id = some t → from_hex 16 tc.info.span_id = some s →
      remote_trace_span span tc =
        some { span with parent_cx := some ⟨t, s, tc.trace_flags, true⟩ } ∧
      (t ≠ TraceId.INVALID →
        (trace_info_from_ref ⟨t, s, tc.trace_flags, true⟩).map TraceInfo.trace_id =
          some (traceIdToString t))) := by
  constructor
  · constructor
    · intro h
      unfold remote_trace_span at h
      rcases h1 : from_hex 32 tc.info.trace_id with _ | t
      · exact Or.inl rfl
      · rcases h2 : from_hex 16 tc.info.span_id with _ | s
        · exact Or.inr rfl
        · rw [h1, h2] at h
          simp at h
    · intro h
      unfold remote_trace_span
      rcases h with h | h
      · rw [h]
      · rw [h]
        rcases from_hex 32 tc.info.trace_id with _ | t <;> rfl
  · intro t s h1 h2
    unfold remote_trace_span
    rw [h1, h2]
    refine ⟨rfl, fun ht => ?_⟩
    unfold trace_info_from_ref
    rw [if_neg ht]
    rfl

/-- C6 witness: the remote context literal from `main.rs`, whose resolved
trace id round-trips to the original hex string. -/
theorem c6_witness :
    remote_trace_span ⟨none⟩ exampleCtx =
      some { Span.mk none with
             parent_cx :=
               some ⟨0x9d96f6d506048d33796d850a09797e55, 0x0db1818f6e5514ee, 0, true⟩ } ∧
    traceIdToString 0x9d96f6d506048d33796d850a09797e55 =
      "9d96f6d506048d33796d850a09797e55" ∧
    (trace_info_from_ref
        ⟨0x9d96f6d506048d33796d850a09797e55, 0x0db1818f6e5514ee, 0, true⟩).map
        TraceInfo.trace_id =
      some (traceIdToString 0x9d96f6d506048d33796d850a09797e55) :=
  ⟨((c6_remote_trace_span ⟨none⟩ exampleCtx).2
      0x9d96f6d506048d33796d850a09797e55 0x0db1818f6e5514ee rfl rfl).1,
   rfl,
   ((c6_remote_trace_span ⟨none⟩ exampleCtx).2
      0x9d96f6d506048d33796d850a09797e55 0x0db1818f6e5514ee rfl rfl).2 (by decide)⟩

theorem visit_some_eq (sink : Sink) (ev : EventData) (sp : SpanData) (debug : Bool)
    {es4 : List (String × Json)}
    (hb : serializeFields sink [] (baseEntries ev) = Except.ok es4) :
    visit sink ev (some sp) debug =
      match serializeSpan sink debug sp with
      | SerResult.panics => SerResult.panics
      | SerResult.fails => afterSpan sink sp es4
      | SerResult.ok spanJson =>
        match serialize_entry sink es4 "span" spanJson with
        | Except.error _ => afterSpan sink sp es4
        | Except.ok es5 => afterSpan sink sp es5 := by
  unfold visit
  rw [hb]

/-- C7: with a current span, failure of the optional entries never aborts
the event: when every structural write is accepted, the format succeeds
whatever happens to the `span` entry (it is silently omitted when the
sink rejects it), and a failed identifier lookup simply contributes no
`span_id`/`trace_id` entries. -/
theorem c7_optional_omission (sink : Sink) (ev : EventData) (sp : SpanData)
    (parsed : Except String Json)
    (hfmt : sp.formatted = some parsed)
    (hok : ∀ k v, k ≠ "span" → sink.ok k v = true)
    (hend : sink.endOk = true) :
    ∃ spanPart,
      visit sink ev (some sp) false =
        SerResult.ok (baseEntries ev ++ spanPart ++ idEntries sp) ∧
      (spanPart = [] ∨ ∃ j, spanPart = [("span", j)]) ∧
      ((∀ v, sink.ok "span" v = false) → spanPart = []) ∧
      (resolve_trace_info sp = none → idEntries sp = []) := by
  have hbase : serializeFields sink [] (baseEntries ev) = Except.ok (baseEntries ev) := by
    have h1 : serializeFields sink [] (baseEntries ev) =
        Except.ok ([] ++ baseEntries ev) := by
      refine serializeFields_allOk ?_
      intro kv hkv
      simp [baseEntries] at hkv
      rcases hkv with h | h | h | h <;> (subst h; exact hok _ _ (by simp))
    simpa using h1
  have hid : resolve_trace_info sp = none → idEntries sp = [] := by
    intro hres
    simp [idEntries, hres]
  have hv := visit_some_eq sink ev sp false hbase
  rcases hs : serializeSpan sink false sp with _ | _ | j
  · exact absurd hs (serializeSpan_ne_panics hfmt)
  · rw [hs] at hv
    refine ⟨[], ?_, Or.inl rfl, fun _ => rfl, hid⟩
    rw [hv]
    show afterSpan sink sp (baseEntries ev) =
      SerResult.ok (baseEntries ev ++ [] ++ idEntries sp)
    rw [afterSpan_ok_of hok hend]
    simp
  · rw [hs] at hv
    by_cases hacc : sink.ok "span" j = true
    · have hse : serialize_entry sink (baseEntries ev) "span" j =
          Except.ok (baseEntries ev ++ [("span", j)]) := by
        rw [serialize_entry, if_pos hacc]
      refine ⟨[("span", j)], ?_, Or.inr ⟨j, rfl⟩, fun hall2 => ?_, hid⟩
      · rw [hv]
        show (match serialize_entry sink (baseEntries ev) "span" j with
          | Except.error _ => afterSpan sink sp (baseEntries ev)
          | Except.ok es5 => afterSpan sink sp es5) =
          SerResult.ok (baseEntries ev ++ [("span", j)] ++ idEntries sp)
        rw [hse]
        exact afterSpan_ok_of hok hend
      · exact absurd (hall2 j) (by simp [hacc])
    · have hse : serialize_entry sink (baseEntries ev) "span" j = Except.error () := by
        rw [serialize_entry, if_neg hacc]
      refine ⟨[], ?_, Or.inl rfl, fun _ => rfl, hid⟩
      rw [hv]
      show (match serialize_entry sink (baseEntries ev) "span" j with
        | Except.error _ => afterSpan sink sp (baseEntries ev)
        | Except.ok es5 => afterSpan sink sp es5) =
        SerResult.ok (baseEntries ev ++ [] ++ idEntries sp)
      rw [hse]
      show afterSpan sink sp (baseEntries ev) =
        SerResult.ok (baseEntries ev ++ [] ++ idEntries sp)
      rw [afterSpan_ok_of hok hend]
      simp

/-- C7 witness: a sink that rejects exactly the `span` entry still
formats the whole record, with the entry omitted. -/
theorem c7_witness :
    ∃ spanPart,
      visit sinkNoSpan evEx (some spEx) false =
        SerResult.ok (baseEntries evEx ++ spanPart ++ idEntries spEx) ∧
      (spanPart = [] ∨ ∃ j, spanPart = [("span", j)]) ∧
      ((∀ v, sinkNoSpan.ok "span" v = false) → spanPart = []) ∧
      (resolve_trace_info spEx = none → idEntries spEx = []) :=
  c7_optional_omission sinkNoSpan evEx spEx (Except.ok (Json.obj [("a", Json.num 1)])) rfl
    (fun k v hk => by simp [sinkNoSpan, hk]) rfl

/-- C8: an event formatted with no current span yields exactly the
object with the four keys timestamp, level, fields, target in that
order, followed by one newline, with no `span`, `span_id` or `trace_id`
key. -/
theorem c8_no_span_base_record (sink : Sink) (ev : EventData) (debug : Bool) (s : String)
    (h : format_event sink ev none debug = SerResult.ok s) :
    visit sink ev none debug = SerResult.ok (baseEntries ev) ∧
    s = renderJson (Json.obj (baseEntries ev)) ++ "\n" ∧
    (baseEntries ev).map Prod.fst = ["timestamp", "level", "fields", "target"] ∧
    ¬ "span" ∈ (baseEntries ev).map Prod.fst ∧
    ¬ "span_id" ∈ (baseEntries ev).map Prod.fst ∧
    ¬ "trace_id" ∈ (baseEntries ev).map Prod.fst := by
  unfold format_event at h
  split at h
  · simp at h
  · simp at h
  · next es hv =>
    obtain rfl := visit_none_ok hv
    split at h
    · injection h with h2
      refine ⟨hv, h2.symm, ?_, ?_, ?_, ?_⟩ <;> simp [baseEntries]
    · simp at h

/-- C8 witness: a concrete spanless event. -/
theorem c8_witness :
    visit sinkAll evEx none false = SerResult.ok (baseEntries evEx) ∧
    renderJson (Json.obj (baseEntries evEx)) ++ "\n" =
      renderJson (Json.obj (baseEntries evEx)) ++ "\n" ∧
    (baseEntries evEx).map Prod.fst = ["timestamp", "level", "fields", "target"] ∧
    ¬ "span" ∈ (baseEntries evEx).map Prod.fst ∧
    ¬ "span_id" ∈ (baseEntries evEx).map Prod.fst ∧
    ¬ "trace_id" ∈ (baseEntries evEx).map Prod.fst :=
  c8_no_span_base_record sinkAll evEx false
    (renderJson (Json.obj (baseEntries evEx)) ++ "\n") rfl

/-- C9: serializing a `RemoteTraceContext` yields the flat camelCase
object `traceId` / `spanId` / `traceFlags`, and deserializing it back
yields an equal structure (for any `u8`-ranged flags). -/
theorem c9_remote_context_roundtrip (c : RemoteTraceContext) (h : c.trace_flags ≤ 255) :
    RemoteTraceContext.toJson c =
      Json.obj [("traceId", Json.str c.info.trace_id), ("spanId", Json.str c.info.span_id),
                ("traceFlags", Json.num (Int.ofNat c.trace_flags))] ∧
    RemoteTraceContext.fromJson (RemoteTraceContext.toJson c) = some c := by
  refine ⟨rfl, ?_⟩
  have h0 : (0 : Int) ≤ Int.ofNat c.trace_flags := Int.ofNat_nonneg _
  have h255 : (Int.ofNat c.trace_flags : Int) ≤ 255 := Int.ofNat_le.mpr h
  simp [RemoteTraceContext.fromJson, RemoteTraceContext.toJson, jsonLookup, h0, h255, h]

/-- C9 witness: the round-trip at the `main.rs` context literal. -/
theorem c9_witness :
    exampleCtx.trace_flags ≤ 255 ∧
    RemoteTraceContext.fromJson (RemoteTraceContext.toJson exampleCtx) = some exampleCtx :=
  ⟨by decide, (c9_remote_context_roundtrip exampleCtx (by decide)).2⟩

/-- C10: neither `Default` (empty identifier strings) nor JSON
deserialization validates the hex format or length of the identifiers:
any string `traceId`/`spanId` with an 8-bit `traceFlags` deserializes,
and `remote_trace_span` then fails on such unvalidated contexts, e.g.
the default one. -/
theorem c10_no_validation :
    RemoteTraceContext.default =
      { info := { trace_id := "", span_id := "" }, trace_flags := 0 } ∧
    (∀ t s f, f ≤ 255 →
        RemoteTraceContext.fromJson
            (Json.obj [("traceId", Json.str t), ("spanId", Json.str s),
                       ("traceFlags", Json.num (Int.ofNat f))]) =
          some { info := { trace_id := t, span_id := s }, trace_flags := f }) ∧
    (∀ span : Span, remote_trace_span span RemoteTraceContext.default = none) ∧
    RemoteTraceContext.fromJson (RemoteTraceContext.toJson RemoteTraceContext.default) =
      some RemoteTraceContext.default := by
  refine ⟨rfl, ?_, fun span => rfl, rfl⟩
  intro t s f hf
  have h0 : (0 : Int) ≤ Int.ofNat f := Int.ofNat_nonneg _
  have h255 : (Int.ofNat f : Int) ≤ 255 := Int.ofNat_le.mpr hf
  simp [RemoteTraceContext.fromJson, jsonLookup, h0, h255, hf]

/-- C10 witness: a context with non-hex identifiers deserializes, and the
default context makes `remote_trace_span` fail. -/
theorem c10_witness :
    RemoteTraceContext.fromJson
        (Json.obj [("traceId", Json.str "not hex"), ("spanId", Json.str "xyz"),
                   ("traceFlags", Json.num (Int.ofNat 7))]) =
      some { info := { trace_id := "not hex", span_id := "xyz" }, trace_flags := 7 } ∧
    remote_trace_span ⟨none⟩ RemoteTraceContext.default = none :=
  ⟨c10_no_validation.2.1 "not hex" "xyz" 7 (by decide),
   c10_no_validation.2.2.1 ⟨none⟩⟩

end StableTrace
